import Mathlib

/-!
# CLI Process Streaming & Session Reconciliation Engine — verification

Shallow embedding of the process-orchestration core of the repository:
the dual-schema stream normalizers (`parse_stream_event` in
`src-tauri/src/sessions/resume.rs` and `parse_claude_message` in
`src-tauri/src/chat/claude_cli.rs`), the stream pumps, the session-keyed
process registry with cancellation (`cancel_session`, `cancel_stream`),
the spawn/validation paths of `create_session` and `spawn_claude_stream`,
and the model-name normalizer (`src-tauri/src/models/normalize.rs`).

Machine strings are Lean `String`s, JSON values are an inductive `Json`
type mirroring `serde_json::Value`, process handles are abstracted as
`Nat` identifiers, and side effects (spawn, kill) are recorded in an
explicit effect list.
-/

namespace CCF

/-- JSON value, mirroring `serde_json::Value`.  Objects are association
lists with unique keys (serde maps keep one value per key). -/
inductive Json where
  | null : Json
  | bool (b : Bool) : Json
  | num (n : Int) : Json
  | str (s : String) : Json
  | arr (items : List Json) : Json
  | obj (fields : List (String × Json)) : Json

/-- Field lookup in an object field list (first match; keys are unique). -/
def getField : List (String × Json) → String → Option Json
  | [], _ => none
  | (k, v) :: rest, key => if k = key then some v else getField rest key

/-- `Value::get(key)`: field lookup, `none` on non-objects. -/
def Json.get : Json → String → Option Json
  | .obj fields, key => getField fields key
  | _, _ => none

/-- `Value::as_str()`. -/
def Json.asStr : Json → Option String
  | .str s => some s
  | _ => none

/-- `Value::as_array()`. -/
def Json.asArr : Json → Option (List Json)
  | .arr items => some items
  | _ => none

/-- Mutable parse state threaded through the normalizers
(`current_message_id`, `accumulated_content` in both pumps). -/
structure ParseState where
  currentMessageId : String
  accumulatedContent : String
deriving DecidableEq, Repr

/-- `StreamEvent` of `sessions/resume.rs`. -/
inductive StreamEvent where
  | sessionIdUpdated (tempId realId : String) : StreamEvent
  | messageStart (messageId : String) : StreamEvent
  | contentDelta (messageId delta : String) : StreamEvent
  | messageComplete (messageId content : String) : StreamEvent
  | error (error : String) : StreamEvent
deriving DecidableEq, Repr

/-- `StreamEvent` of `chat/claude_cli.rs` (a distinct Rust enum; the
`ToolUse`/`ToolResult` variants exist in the source but are never
constructed by `parse_claude_message`). -/
inductive ChatStreamEvent where
  | messageStart (messageId : String) : ChatStreamEvent
  | contentDelta (messageId delta : String) : ChatStreamEvent
  | messageComplete (messageId content : String) : ChatStreamEvent
  | toolUse (messageId toolName : String) (input : Json) : ChatStreamEvent
  | toolResult (messageId toolName output : String) : ChatStreamEvent
  | error (error : String) : ChatStreamEvent

/-- The `for content_item in content_array` loop of the `assistant`
branch: first content item whose `text` field is a string. -/
def findText : List Json → Option String
  | [] => none
  | item :: rest =>
    match (item.get "text").bind Json.asStr with
    | some t => some t
    | none => findText rest

/-- `parse_stream_event` (`sessions/resume.rs:159-260`).  The Rust
function takes `&mut` state and returns `Option<StreamEvent>`; here the
new state is returned alongside.  A `?` early return in Rust leaves the
state untouched, hence `(none, st)` in the corresponding branches. -/
def parseStreamEvent (json : Json) (st : ParseState) :
    Option StreamEvent × ParseState :=
  match (json.get "type").bind Json.asStr with
  | none => (none, st)
  | some topType =>
    if topType = "stream_event" then
      match json.get "event" with
      | none => (none, st)
      | some event =>
        match (event.get "type").bind Json.asStr with
        | none => (none, st)
        | some eventType =>
          if eventType = "message_start" then
            match ((event.get "message").bind (fun m => m.get "id")).bind Json.asStr with
            | none => (none, st)
            | some msgId => (some (.messageStart msgId), ⟨msgId, ""⟩)
          else if eventType = "content_block_delta" then
            match ((event.get "delta").bind (fun d => d.get "text")).bind Json.asStr with
            | none => (none, st)
            | some delta =>
              (some (.contentDelta st.currentMessageId delta),
               ⟨st.currentMessageId, st.accumulatedContent ++ delta⟩)
          else if eventType = "message_stop" then
            -- state intentionally NOT reset here (source keeps it)
            (some (.messageComplete st.currentMessageId st.accumulatedContent), st)
          else (none, st)
    else if topType = "system" then
      -- only logs; session_id handling lives in the create_session pump
      (none, st)
    else if topType = "assistant" then
      match json.get "message" with
      | none => (none, st)
      | some message =>
        match (message.get "id").bind Json.asStr with
        | none => (none, st)
        | some msgId =>
          let st1 : ParseState :=
            if st.currentMessageId = "" then ⟨msgId, ""⟩ else st
          match (message.get "content").bind Json.asArr with
          | none => (none, st1)
          | some contentArray =>
            match findText contentArray with
            | some text =>
              (some (.contentDelta msgId text), ⟨st1.currentMessageId, text⟩)
            | none => (none, st1)
    else if topType = "result" then
      if st.currentMessageId = "" then (none, st)
      else
        (some (.messageComplete st.currentMessageId st.accumulatedContent),
         ⟨"", ""⟩)
    else if topType = "error" then
      match (json.get "error").bind Json.asStr with
      | some msg => (some (.error msg), st)
      | none => (some (.error "Unknown error"), st)
    else (none, st)

/-- `parse_claude_message` (`chat/claude_cli.rs:209-257`): only the
wrapped `stream_event` schema; every other top-level type is skipped. -/
def parseClaudeMessage (json : Json) (st : ParseState) :
    Option ChatStreamEvent × ParseState :=
  match (json.get "type").bind Json.asStr with
  | none => (none, st)
  | some topType =>
    if topType = "stream_event" then
      match json.get "event" with
      | none => (none, st)
      | some event =>
        match (event.get "type").bind Json.asStr with
        | none => (none, st)
        | some eventType =>
          if eventType = "message_start" then
            match ((event.get "message").bind (fun m => m.get "id")).bind Json.asStr with
            | none => (none, st)
            | some msgId => (some (.messageStart msgId), ⟨msgId, ""⟩)
          else if eventType = "content_block_delta" then
            match ((event.get "delta").bind (fun d => d.get "text")).bind Json.asStr with
            | none => (none, st)
            | some delta =>
              (some (.contentDelta st.currentMessageId delta),
               ⟨st.currentMessageId, st.accumulatedContent ++ delta⟩)
          else if eventType = "message_stop" then
            (some (.messageComplete st.currentMessageId st.accumulatedContent), st)
          else (none, st)
    else (none, st)

/-! ## Stream pumps -/

/-- One line read from the subprocess's stdout.  `garbage` stands both
for a blank line (skipped before parsing) and a line that is not valid
JSON (serde parse failure, logged and skipped): in either case the pump
produces nothing and leaves all state untouched. -/
inductive Line where
  | garbage : Line
  | json (j : Json) : Line

/-- Run the resume normalizer over a list of already-parsed JSON lines,
collecting the emitted events (the order they reach the sink). -/
def runLines : List Json → ParseState → List StreamEvent × ParseState
  | [], st => ([], st)
  | j :: rest, st =>
    let (evOpt, st1) := parseStreamEvent j st
    let (evs, st2) := runLines rest st1
    (evOpt.toList ++ evs, st2)

/-- Run the chat normalizer over raw lines
(loop body of `spawn_claude_stream`, `chat/claude_cli.rs:156-181`). -/
def runChatLines : List Line → ParseState → List ChatStreamEvent × ParseState
  | [], st => ([], st)
  | .garbage :: rest, st => runChatLines rest st
  | .json j :: rest, st =>
    let (evOpt, st1) := parseClaudeMessage j st
    let (evs, st2) := runChatLines rest st1
    (evOpt.toList ++ evs, st2)

/-- Full chat pump including the end-of-stream flush
(`chat/claude_cli.rs:183-195`): after stdout closes, a final
`MessageComplete` is emitted iff BOTH `current_message_id` and
`accumulated_content` are non-empty. -/
def chatPump (lines : List Line) : List ChatStreamEvent :=
  let (evs, st) := runChatLines lines ⟨"", ""⟩
  if !st.currentMessageId.isEmpty && !st.accumulatedContent.isEmpty then
    evs ++ [.messageComplete st.currentMessageId st.accumulatedContent]
  else evs

/-! ## Process registry -/

/-- The mutex-guarded `HashMap<String, Child>`; a process handle is
abstracted as a `Nat` identifier.  The association list is kept with
unique keys, matching the map. -/
abbrev Registry := List (String × Nat)

/-- Lookup (`HashMap::get`-style; used to model `remove`'s return). -/
def findKey : Registry → String → Option Nat
  | [], _ => none
  | (k, v) :: rest, key => if k = key then some v else findKey rest key

/-- Key removal (`HashMap::remove` dropping the entry). -/
def removeKey : Registry → String → Registry
  | [], _ => []
  | (k, v) :: rest, key =>
    if k = key then rest else (k, v) :: removeKey rest key

/-- `HashMap::insert` (replaces any existing entry for the key). -/
def insertKey (reg : Registry) (key : String) (h : Nat) : Registry :=
  (key, h) :: removeKey reg key

/-- Observable process side effects of the orchestrator. -/
inductive Effect where
  | spawnProc : Effect
  | killProc (h : Nat) : Effect
deriving DecidableEq, Repr

/-! ## create_session pump (temp-id reconciliation) -/

/-- State of the `create_session` stdout task
(`sessions/resume.rs:344-415`): the shared registry, the
`real_session_id` local, and the parse state. -/
structure CreateState where
  registry : Registry
  realSessionId : Option String
  parse : ParseState

/-- The `system`-line check at the top of the `create_session` loop body
(`sessions/resume.rs:362-387`): on a `system` line with a string
`session_id`, remove the temp key, re-insert the same handle under the
real id, record the real id, and emit `SessionIdUpdated` to both the
temp and the real channel. -/
def systemCheck (tempId : String) (st : CreateState) (j : Json) :
    CreateState × List (String × StreamEvent) :=
  if (j.get "type").bind Json.asStr = some "system" then
    match (j.get "session_id").bind Json.asStr with
    | some sid =>
      let reg1 : Registry :=
        match findKey st.registry tempId with
        | some ph => insertKey (removeKey st.registry tempId) sid ph
        | none => st.registry
      let ev := StreamEvent.sessionIdUpdated tempId sid
      ({ st with registry := reg1, realSessionId := some sid },
       [(tempId, ev), (sid, ev)])
    | none => (st, [])
  else (st, [])

/-- One iteration of the `create_session` read loop: the `system` line
check, then `parse_stream_event`, with the resulting event emitted under
the currently active key (`real_session_id` if known, else the temp
key).  Emissions are `(channel key, event)` pairs. -/
def createStep (tempId : String) (st : CreateState) :
    Line → CreateState × List (String × StreamEvent)
  | .garbage => (st, [])
  | .json j =>
    let s1 := systemCheck tempId st j
    let activeId := s1.1.realSessionId.getD tempId
    match parseStreamEvent j s1.1.parse with
    | (some ev, ps2) => ({ s1.1 with parse := ps2 }, s1.2 ++ [(activeId, ev)])
    | (none, ps2) => ({ s1.1 with parse := ps2 }, s1.2)

/-- The whole `create_session` read loop over a line list. -/
def runCreate (tempId : String) (st : CreateState) :
    List Line → CreateState × List (String × StreamEvent)
  | [] => (st, [])
  | l :: rest =>
    let (st1, es1) := createStep tempId st l
    let (st2, es2) := runCreate tempId st1 rest
    (st2, es1 ++ es2)

/-- The `create_session` pump including its end-of-stream behaviour
(`sessions/resume.rs:409-415`): the registry entry for the final key is
removed; no flush event of any kind is emitted. -/
def createPump (tempId : String) (st : CreateState) (lines : List Line) :
    CreateState × List (String × StreamEvent) :=
  let (st1, emits) := runCreate tempId st lines
  ({ st1 with
      registry := removeKey st1.registry (st1.realSessionId.getD tempId) },
   emits)

/-! ## Cancellation -/

/-- `cancel_session` (`sessions/resume.rs:421-437`): remove, then kill;
absent key yields the NotRunning error.  Kill itself is modelled as
always succeeding (its OS failure path only maps the error string). -/
def cancelSession (reg : Registry) (sessionId : String) :
    Except String Unit × Registry × List Effect :=
  match findKey reg sessionId with
  | some child =>
    (Except.ok (), removeKey reg sessionId, [Effect.killProc child])
  | none => (Except.error "Session is not running", reg, [])

/-- `cancel_stream` (`chat/claude_cli.rs:260-269`): remove-and-kill if
present, but `Ok(())` — silent success — when the key is absent. -/
def cancelStream (reg : Registry) (sessionId : String) :
    Except String Unit × Registry × List Effect :=
  match findKey reg sessionId with
  | some child =>
    (Except.ok (), removeKey reg sessionId, [Effect.killProc child])
  | none => (Except.ok (), reg, [])

/-! ## Path validation and spawn paths -/

/-- Abstract filesystem queried by path validation. -/
structure FileSystem where
  isAbsolute : String → Bool
  pathExists : String → Bool
  canonicalize : String → Option String

/-- Environment of one Create/Resume call: CLI presence, filesystem, and
the outcome of the spawn attempt (`none` = spawn fails; `some b` = spawn
succeeds with `b` telling whether a stdout handle is obtainable). -/
structure SpawnEnv where
  claudeInstalled : Bool
  fs : FileSystem
  spawnResult : Option Bool

/-- `validate_project_path` (`chat/claude_cli.rs:61-80`): absolute,
existing, canonicalizable — in that order. -/
def validateProjectPath (fs : FileSystem) (path : String) :
    Except String String :=
  if !fs.isAbsolute path then
    Except.error "Project path must be absolute"
  else if !fs.pathExists path then
    Except.error ("Project path does not exist: " ++ path)
  else
    match fs.canonicalize path with
    | some c => Except.ok c
    | none => Except.error "Failed to canonicalize path"

/-- Alias map of `models/config.rs` (`get_alias_map`): lowercased alias
or id mapped to the full model id. -/
abbrev AliasMap := List (String × String)

/-- Association-list lookup used for the alias map. -/
def lookupAlias : AliasMap → String → Option String
  | [], _ => none
  | (k, v) :: rest, key => if k = key then some v else lookupAlias rest key

/-- `str::to_lowercase`, modelled character by character (the model
names involved are ASCII). -/
def strToLower (s : String) : String := ⟨s.data.map Char.toLower⟩

/-- `normalize_model_name` (`models/normalize.rs:10-29`): lowercase the
input, look it up; on a miss the input is returned unchanged. -/
def normalizeModelName (aliasMap : AliasMap) (modelName : String) : String :=
  match lookupAlias aliasMap (strToLower modelName) with
  | some fullId => fullId
  | none => modelName

/-- Synchronous phase of `create_session` (`sessions/resume.rs:263-325`)
up to registration: CLI check, existence check, canonicalize (note: NO
absoluteness check on this path), spawn, take stdout (kill on failure),
insert under the temp key.  `h` is the handle the spawn would produce.
Returns (result, registry after, effect list). -/
def createSessionStart (env : SpawnEnv) (projectPath tempId : String)
    (reg : Registry) (h : Nat) :
    Except String String × Registry × List Effect :=
  if !env.claudeInstalled then
    (Except.error "Claude CLI is not installed. Please install it first.",
     reg, [])
  else if !env.fs.pathExists projectPath then
    (Except.error ("Project path does not exist: " ++ projectPath), reg, [])
  else
    match env.fs.canonicalize projectPath with
    | none => (Except.error "Failed to canonicalize path", reg, [])
    | some _ =>
      match env.spawnResult with
      | none =>
        (Except.error "Failed to spawn Claude CLI", reg, [Effect.spawnProc])
      | some stdoutAvailable =>
        if !stdoutAvailable then
          (Except.error "Failed to get stdout", reg,
           [Effect.spawnProc, Effect.killProc h])
        else
          (Except.ok tempId, insertKey reg tempId h, [Effect.spawnProc])

/-- Synchronous phase of `resume_session` (`sessions/resume.rs:30-95`):
identical validation/spawn structure to `create_session`, registering
under the given (already real) session id. -/
def resumeSessionStart (env : SpawnEnv) (projectPath sessionId : String)
    (reg : Registry) (h : Nat) :
    Except String Unit × Registry × List Effect :=
  if !env.claudeInstalled then
    (Except.error "Claude CLI is not installed. Please install it first.",
     reg, [])
  else if !env.fs.pathExists projectPath then
    (Except.error ("Project path does not exist: " ++ projectPath), reg, [])
  else
    match env.fs.canonicalize projectPath with
    | none => (Except.error "Failed to canonicalize path", reg, [])
    | some _ =>
      match env.spawnResult with
      | none =>
        (Except.error "Failed to spawn Claude CLI", reg, [Effect.spawnProc])
      | some stdoutAvailable =>
        if !stdoutAvailable then
          (Except.error "Failed to get stdout", reg,
           [Effect.spawnProc, Effect.killProc h])
        else
          (Except.ok (), insertKey reg sessionId h, [Effect.spawnProc])

/-- Synchronous phase of `spawn_claude_stream`
(`chat/claude_cli.rs:83-144`) up to registration: model normalization
(`validate_model` is always `Ok`), `validate_project_path` (including
the absoluteness check), spawn, take stdout (kill on failure), insert
under the session key. -/
def spawnClaudeStreamStart (env : SpawnEnv) (aliasMap : AliasMap)
    (model projectPath sessionId : String) (reg : Registry) (h : Nat) :
    Except String Unit × Registry × List Effect :=
  let _normalizedModel := normalizeModelName aliasMap model
  match validateProjectPath env.fs projectPath with
  | Except.error e => (Except.error e, reg, [])
  | Except.ok _ =>
    match env.spawnResult with
    | none =>
      (Except.error "Failed to spawn Claude CLI", reg, [Effect.spawnProc])
    | some stdoutAvailable =>
      if !stdoutAvailable then
        (Except.error "Failed to get stdout", reg,
         [Effect.spawnProc, Effect.killProc h])
      else
        (Except.ok (), insertKey reg sessionId h, [Effect.spawnProc])

/-! ## Wire-format line builders and event-list helpers -/

/-- Wrapped-schema `message_start` line. -/
def mkMessageStart (id : String) : Json :=
  .obj [("type", .str "stream_event"),
        ("event", .obj [("type", .str "message_start"),
                        ("message", .obj [("id", .str id)])])]

/-- Wrapped-schema `content_block_delta` line. -/
def mkContentDelta (text : String) : Json :=
  .obj [("type", .str "stream_event"),
        ("event", .obj [("type", .str "content_block_delta"),
                        ("delta", .obj [("text", .str text)])])]

/-- Wrapped-schema `message_stop` line. -/
def mkMessageStop : Json :=
  .obj [("type", .str "stream_event"),
        ("event", .obj [("type", .str "message_stop")])]

/-- Verbose-schema `system` init line carrying the real session id. -/
def mkSystem (sessionId : String) : Json :=
  .obj [("type", .str "system"), ("session_id", .str sessionId)]

/-- Verbose-schema `assistant` line with one text content block. -/
def mkAssistant (id text : String) : Json :=
  .obj [("type", .str "assistant"),
        ("message", .obj [("id", .str id),
                          ("content", .arr [.obj [("text", .str text)]])])]

/-- Verbose-schema `result` line. -/
def mkResult : Json := .obj [("type", .str "result")]

/-- A full valid wrapped-schema message: start, deltas, stop. -/
def wrappedSeq (id : String) (deltas : List String) : List Json :=
  mkMessageStart id :: (deltas.map mkContentDelta ++ [mkMessageStop])

/-- Concatenation of a list of strings, in order. -/
def concatAll : List String → String
  | [] => ""
  | s :: rest => s ++ concatAll rest

/-- Delta payloads of the `ContentDelta` events of a resume event list,
in order. -/
def contentDeltas : List StreamEvent → List String
  | [] => []
  | .contentDelta _ d :: rest => d :: contentDeltas rest
  | _ :: rest => contentDeltas rest

/-- Content payloads of the `MessageComplete` events of a resume event
list, in order. -/
def completeContents : List StreamEvent → List String
  | [] => []
  | .messageComplete _ c :: rest => c :: completeContents rest
  | _ :: rest => completeContents rest

/-- Number of `MessageComplete` events in a chat event list. -/
def countChatComplete : List ChatStreamEvent → Nat
  | [] => 0
  | .messageComplete _ _ :: rest => countChatComplete rest + 1
  | _ :: rest => countChatComplete rest

/-- Does a line pass the `create_session` pump's system-init guard
(top-level type `system` with a string `session_id`)? -/
def Line.isSystemAnnounce : Line → Bool
  | .garbage => false
  | .json j =>
    ((j.get "type").bind Json.asStr == some "system") &&
    ((j.get "session_id").bind Json.asStr).isSome

/-- Does the resume line carry top-level type `assistant`? -/
def isAssistantLine (j : Json) : Bool :=
  (j.get "type").bind Json.asStr == some "assistant"

/-- All keys of a registry are distinct (the `HashMap` invariant). -/
def uniqueKeys (reg : Registry) : Prop := (reg.map Prod.fst).Nodup

/-- An `assistant` line whose `message` has an `id` but no `content`
field — a line missing a required field of a recognized shape. -/
def assistantNoContent : Json :=
  Json.obj [("type", Json.str "assistant"),
            ("message", Json.obj [("id", Json.str "m1")])]

/-! ## Helper lemmas -/

theorem runLines_mkContentDelta (id acc : String) (deltas : List String) :
    runLines (deltas.map mkContentDelta) ⟨id, acc⟩ =
      (deltas.map (StreamEvent.contentDelta id), ⟨id, acc ++ concatAll deltas⟩) := by
  induction deltas generalizing acc with
  | nil => simp [runLines, concatAll]
  | cons d ds ih =>
    simp [runLines, parseStreamEvent, mkContentDelta, Json.get, getField,
      Json.asStr, concatAll, ih, String.append_assoc]

theorem runLines_append (ls1 ls2 : List Json) (st : ParseState) :
    runLines (ls1 ++ ls2) st =
      ((runLines ls1 st).1 ++ (runLines ls2 (runLines ls1 st).2).1,
       (runLines ls2 (runLines ls1 st).2).2) := by
  induction ls1 generalizing st with
  | nil => simp [runLines]
  | cons l rest ih => simp [runLines, ih]

theorem runLines_wrappedSeq (id : String) (deltas : List String) :
    runLines (wrappedSeq id deltas) ⟨"", ""⟩ =
      (StreamEvent.messageStart id ::
        (deltas.map (StreamEvent.contentDelta id) ++
          [StreamEvent.messageComplete id (concatAll deltas)]),
       ⟨id, concatAll deltas⟩) := by
  simp [wrappedSeq, runLines, runLines_append, parseStreamEvent, mkMessageStart,
    mkMessageStop, Json.get, getField, Json.asStr, runLines_mkContentDelta]

theorem contentDeltas_map_append (id : String) (deltas : List String)
    (rest : List StreamEvent) :
    contentDeltas (deltas.map (StreamEvent.contentDelta id) ++ rest) =
      deltas ++ contentDeltas rest := by
  induction deltas with
  | nil => simp
  | cons d ds ih => simp [contentDeltas, ih]

theorem completeContents_map_append (id : String) (deltas : List String)
    (rest : List StreamEvent) :
    completeContents (deltas.map (StreamEvent.contentDelta id) ++ rest) =
      completeContents rest := by
  induction deltas with
  | nil => simp
  | cons d ds ih => simp [completeContents, ih]

theorem findKey_removeKey_none (reg : Registry) (k1 k2 : String)
    (h : findKey reg k1 = none) : findKey (removeKey reg k2) k1 = none := by
  induction reg with
  | nil => simpa [removeKey] using h
  | cons p rest ih =>
    obtain ⟨k, v⟩ := p
    simp only [findKey] at h
    split at h
    · exact absurd h (by simp)
    · by_cases hk : k = k2 <;> simp_all [removeKey, findKey]

theorem findKey_eq_none_of_not_mem (reg : Registry) (k : String)
    (h : k ∉ reg.map Prod.fst) : findKey reg k = none := by
  induction reg with
  | nil => rfl
  | cons p rest ih =>
    obtain ⟨k1, v⟩ := p
    simp only [List.map_cons, List.mem_cons] at h
    push_neg at h
    have hne : ¬k1 = k := fun hc => h.1 hc.symm
    simp [findKey, hne, ih h.2]

theorem findKey_removeKey_self (reg : Registry) (k : String)
    (h : uniqueKeys reg) : findKey (removeKey reg k) k = none := by
  induction reg with
  | nil => simp [removeKey, findKey]
  | cons p rest ih =>
    obtain ⟨k1, v⟩ := p
    simp only [uniqueKeys, List.map_cons, List.nodup_cons] at h
    by_cases hk : k1 = k
    · subst hk
      simpa [removeKey] using findKey_eq_none_of_not_mem rest k1 h.1
    · simp [removeKey, hk, findKey, ih h.2]

theorem systemCheck_noAnnounce (tempId : String) (st : CreateState) (j : Json)
    (hl : Line.isSystemAnnounce (.json j) = false) :
    systemCheck tempId st j = (st, []) := by
  unfold systemCheck
  unfold Line.isSystemAnnounce at hl
  split
  · next hc =>
    split
    · next sid hs => simp [hc, hs] at hl
    · rfl
  · rfl

theorem createStep_noAnnounce (tempId : String) (st : CreateState) (l : Line)
    (hl : l.isSystemAnnounce = false) :
    (createStep tempId st l).1.registry = st.registry ∧
    (createStep tempId st l).1.realSessionId = st.realSessionId ∧
    ∀ p ∈ (createStep tempId st l).2, p.1 = st.realSessionId.getD tempId := by
  cases l with
  | garbage => simp [createStep]
  | json j =>
    simp only [createStep, systemCheck_noAnnounce tempId st j hl]
    cases hp : parseStreamEvent j st.parse with
    | mk evOpt ps2 => cases evOpt <;> simp

theorem runCreate_active (tempId X : String) (st : CreateState) (ls : List Line)
    (hReal : st.realSessionId = some X)
    (hNoSys : ∀ l ∈ ls, l.isSystemAnnounce = false) :
    (∀ p ∈ (runCreate tempId st ls).2, p.1 = X) ∧
    (runCreate tempId st ls).1.realSessionId = some X := by
  induction ls generalizing st with
  | nil => simp [runCreate, hReal]
  | cons l rest ih =>
    have hl : l.isSystemAnnounce = false := hNoSys l (by simp)
    have hrest : ∀ l2 ∈ rest, l2.isSystemAnnounce = false :=
      fun l2 hm => hNoSys l2 (by simp [hm])
    obtain ⟨hreg, hrid, hkeys⟩ := createStep_noAnnounce tempId st l hl
    have ih2 := ih (createStep tempId st l).1 (by rw [hrid, hReal]) hrest
    have hrun : runCreate tempId st (l :: rest) =
        ((runCreate tempId (createStep tempId st l).1 rest).1,
         (createStep tempId st l).2 ++
           (runCreate tempId (createStep tempId st l).1 rest).2) := by
      simp [runCreate]
    rw [hrun]
    refine ⟨?_, ih2.2⟩
    intro p hp
    rcases List.mem_append.1 hp with hp | hp
    · have := hkeys p hp
      rw [hReal] at this
      simpa using this
    · exact ih2.1 p hp

theorem createStep_system (tempId X : String) (ph : Nat) (st : CreateState)
    (hT : findKey st.registry tempId = some ph)
    (hOnce : findKey (removeKey st.registry tempId) tempId = none)
    (hXT : X ≠ tempId) :
    findKey (createStep tempId st (.json (mkSystem X))).1.registry tempId = none ∧
    findKey (createStep tempId st (.json (mkSystem X))).1.registry X = some ph ∧
    (createStep tempId st (.json (mkSystem X))).1.realSessionId = some X ∧
    (createStep tempId st (.json (mkSystem X))).2 =
      [(tempId, StreamEvent.sessionIdUpdated tempId X),
       (X, StreamEvent.sessionIdUpdated tempId X)] ∧
    (createStep tempId st (.json (mkSystem X))).1.parse = st.parse := by
  simp [createStep, systemCheck, mkSystem, Json.get, getField, Json.asStr,
    parseStreamEvent, hT, insertKey, findKey, hXT,
    findKey_removeKey_none _ _ _ hOnce]

theorem parseClaudeMessage_none_frame (j : Json) (st : ParseState) :
    (parseClaudeMessage j st).1 = none → (parseClaudeMessage j st).2 = st := by
  unfold parseClaudeMessage
  intro h
  repeat' split at h
  all_goals simp_all

theorem parseStreamEvent_none_frame (j : Json) (st : ParseState) :
    (parseStreamEvent j st).1 = none →
      (parseStreamEvent j st).2 = st ∨
        (isAssistantLine j = true ∧ st.currentMessageId = "") := by
  unfold parseStreamEvent isAssistantLine
  intro h
  repeat' split at h
  all_goals simp_all

/-! ## Concrete environments used in counterexamples and witnesses -/

/-- Filesystem in which every path exists and canonicalizes but no path
is absolute (an existing relative path, seen from some working
directory). -/
def relFs : FileSystem :=
  { isAbsolute := fun _ => false,
    pathExists := fun _ => true,
    canonicalize := fun p => some p }

/-- Environment: CLI installed, relative-path filesystem, spawn fine. -/
def relEnv : SpawnEnv :=
  { claudeInstalled := true, fs := relFs, spawnResult := some true }

/-- Filesystem in which every path is absolute, exists and
canonicalizes. -/
def okFs : FileSystem :=
  { isAbsolute := fun _ => true,
    pathExists := fun _ => true,
    canonicalize := fun p => some p }

/-- Environment in which the spawn succeeds but no stdout handle can be
obtained. -/
def noStdoutEnv : SpawnEnv :=
  { claudeInstalled := true, fs := okFs, spawnResult := some false }

/-- Environment in which no path exists. -/
def missingPathEnv : SpawnEnv :=
  { claudeInstalled := true,
    fs := { isAbsolute := fun _ => true,
            pathExists := fun _ => false,
            canonicalize := fun _ => none },
    spawnResult := some true }

/-! ## Claims -/

/-- C1: for every wrapped-schema sequence `message_start`,
`content_block_delta`*, `message_stop` fed in order to
`parse_stream_event` from a fresh `ParseState`, the content of the
emitted `MessageComplete` equals the concatenation, in arrival order, of
the `delta` values of all emitted `ContentDelta` events. -/
theorem claim_C1 (id : String) (deltas : List String) :
    completeContents ((runLines (wrappedSeq id deltas) ⟨"", ""⟩).1) =
      [concatAll (contentDeltas ((runLines (wrappedSeq id deltas) ⟨"", ""⟩).1))] := by
  rw [runLines_wrappedSeq]
  simp [contentDeltas, completeContents, contentDeltas_map_append,
    completeContents_map_append]

/-- C2: when the `create_session` pump, for a stream registered once
under temp key `tempId`, processes a verbose `system` line carrying
`session_id = X` (with `X` distinct from the temp key), the registry no
longer contains the temp key, contains `X` bound to the same process
handle, `SessionIdUpdated` is emitted on both the temp and the real
channel, and — as long as no later line announces a session id — every
subsequent event of that stream is published under key `X`. -/
theorem claim_C2 (tempId X : String) (ph : Nat)
    (st : CreateState) (rest : List Line)
    (hT : findKey st.registry tempId = some ph)
    (hOnce : findKey (removeKey st.registry tempId) tempId = none)
    (hXT : X ≠ tempId)
    (hRest : ∀ l ∈ rest, l.isSystemAnnounce = false) :
    findKey (createStep tempId st (.json (mkSystem X))).1.registry tempId = none ∧
    findKey (createStep tempId st (.json (mkSystem X))).1.registry X = some ph ∧
    (tempId, StreamEvent.sessionIdUpdated tempId X) ∈
      (createStep tempId st (.json (mkSystem X))).2 ∧
    (X, StreamEvent.sessionIdUpdated tempId X) ∈
      (createStep tempId st (.json (mkSystem X))).2 ∧
    ∀ p ∈ (runCreate tempId (createStep tempId st (.json (mkSystem X))).1 rest).2,
      p.1 = X := by
  obtain ⟨h1, h2, h3, h4, h5⟩ := createStep_system tempId X ph st hT hOnce hXT
  exact ⟨h1, h2, by simp [h4], by simp [h4],
    (runCreate_active tempId X _ rest h3 hRest).1⟩

/-- C2 witness: concrete reconciliation of `temp-1` to `real-1` with
handle 7, followed by an assistant and a result line. -/
theorem claim_C2_witness :
    findKey (createStep "temp-1" ⟨[("temp-1", 7)], none, ⟨"", ""⟩⟩
        (.json (mkSystem "real-1"))).1.registry "temp-1" = none ∧
    findKey (createStep "temp-1" ⟨[("temp-1", 7)], none, ⟨"", ""⟩⟩
        (.json (mkSystem "real-1"))).1.registry "real-1" = some 7 ∧
    ("temp-1", StreamEvent.sessionIdUpdated "temp-1" "real-1") ∈
      (createStep "temp-1" ⟨[("temp-1", 7)], none, ⟨"", ""⟩⟩
        (.json (mkSystem "real-1"))).2 ∧
    ("real-1", StreamEvent.sessionIdUpdated "temp-1" "real-1") ∈
      (createStep "temp-1" ⟨[("temp-1", 7)], none, ⟨"", ""⟩⟩
        (.json (mkSystem "real-1"))).2 ∧
    ∀ p ∈ (runCreate "temp-1"
        (createStep "temp-1" ⟨[("temp-1", 7)], none, ⟨"", ""⟩⟩
          (.json (mkSystem "real-1"))).1
        [.json (mkAssistant "m1" "Hello"), .json mkResult]).2, p.1 = "real-1" :=
  claim_C2 "temp-1" "real-1" 7 ⟨[("temp-1", 7)], none, ⟨"", ""⟩⟩
    [.json (mkAssistant "m1" "Hello"), .json mkResult]
    (by decide) (by decide) (by decide) (by decide)

/-- C3 counterexample: `cancel_stream` (`chat/claude_cli.rs:260-269`) on
a key that was never inserted returns `Ok(())` — silent success, not the
NotRunning error the claim demands of every Cancel operation. -/
theorem claim_C3_counterexample :
    (cancelStream [] "chat-1").1 = Except.ok () ∧
    (cancelStream [] "chat-1").2.2 = [] := ⟨rfl, rfl⟩

/-- C3 amended: `cancel_session` on an absent key fails with the
NotRunning error and does nothing; on a live key both cancel operations
remove the entry and kill the process exactly once; `cancel_stream` on
an absent key succeeds silently. -/
theorem claim_C3_amended :
    (∀ (reg : Registry) (k : String), findKey reg k = none →
      cancelSession reg k = (Except.error "Session is not running", reg, []) ∧
      cancelStream reg k = (Except.ok (), reg, [])) ∧
    (∀ (reg : Registry) (k : String) (ph : Nat), findKey reg k = some ph →
      cancelSession reg k = (Except.ok (), removeKey reg k, [Effect.killProc ph]) ∧
      cancelStream reg k = (Except.ok (), removeKey reg k, [Effect.killProc ph])) ∧
    (∀ (reg : Registry) (k : String), uniqueKeys reg →
      findKey (removeKey reg k) k = none) := by
  refine ⟨fun reg k h => ?_, fun reg k ph h => ?_, findKey_removeKey_self⟩
  · simp [cancelSession, cancelStream, h]
  · simp [cancelSession, cancelStream, h]

/-- C3 witness: cancelling the live key `s1` kills handle 5 once and
empties the registry; cancelling the absent key `s2` yields the
NotRunning error. -/
theorem claim_C3_witness :
    (findKey [("s1", 5)] "s1" = some 5 ∧
      cancelSession [("s1", 5)] "s1" =
        (Except.ok (), [], [Effect.killProc 5])) ∧
    (findKey ([] : Registry) "s2" = none ∧
      cancelSession [] "s2" = (Except.error "Session is not running", [], [])) := by
  refine ⟨⟨by decide, ?_⟩, ⟨by decide, ?_⟩⟩
  · exact (claim_C3_amended.2.1 [("s1", 5)] "s1" 5 (by decide)).1
  · exact (claim_C3_amended.1 [] "s2" (by decide)).1

/-- C4 counterexample: the verbose `assistant` line `assistantNoContent`
carries `message.id` but no `content` field — a line missing a required
field of a recognized shape.  `parse_stream_event` returns `None` on it,
yet from the fresh state it sets `currentMessageId` to `m1`, mutating
`ParseState`. -/
theorem claim_C4_counterexample :
    (parseStreamEvent assistantNoContent ⟨"", ""⟩).1 = none ∧
    (parseStreamEvent assistantNoContent ⟨"", ""⟩).2 ≠ (⟨"", ""⟩ : ParseState) :=
  ⟨rfl, by decide⟩

/-- C4 amended: whenever `parse_claude_message` returns `None` it leaves
the state untouched; whenever `parse_stream_event` returns `None` it
leaves the state untouched except possibly for an `assistant` line
observed while `currentMessageId` was empty (which may initialize the
id and clear the accumulator); non-JSON lines are skipped by the pumps
with no event and no state change. -/
theorem claim_C4_amended :
    (∀ (j : Json) (st : ParseState), (parseClaudeMessage j st).1 = none →
        (parseClaudeMessage j st).2 = st) ∧
    (∀ (j : Json) (st : ParseState), (parseStreamEvent j st).1 = none →
        (parseStreamEvent j st).2 = st ∨
          (isAssistantLine j = true ∧ st.currentMessageId = "")) ∧
    (∀ (st : ParseState), runChatLines [Line.garbage] st = ([], st)) :=
  ⟨parseClaudeMessage_none_frame, parseStreamEvent_none_frame,
   fun _ => rfl⟩

/-- C4 witness: a rejected line leaves `parse_claude_message` state
untouched, and the assistant-without-content line falls under the
assistant escape clause of the amended statement. -/
theorem claim_C4_witness :
    (parseClaudeMessage (Json.str "garbage") ⟨"a", "b"⟩).1 = none ∧
    (parseClaudeMessage (Json.str "garbage") ⟨"a", "b"⟩).2 = ⟨"a", "b"⟩ ∧
    (parseStreamEvent assistantNoContent ⟨"", ""⟩).1 = none ∧
    ((parseStreamEvent assistantNoContent ⟨"", ""⟩).2 = ⟨"", ""⟩ ∨
      (isAssistantLine assistantNoContent = true ∧
        (⟨"", ""⟩ : ParseState).currentMessageId = "")) :=
  ⟨rfl, claim_C4_amended.1 (Json.str "garbage") ⟨"a", "b"⟩ rfl, rfl,
   claim_C4_amended.2.1 assistantNoContent ⟨"", ""⟩ rfl⟩

/-- C5 counterexample: a stream that ends after `message_start` leaves
`currentMessageId` non-empty (`m1`), yet `spawn_claude_stream` emits NO
flush `MessageComplete` because `accumulated_content` is empty — the
flush condition in the source requires both fields non-empty. -/
theorem claim_C5_counterexample :
    (runChatLines [Line.json (mkMessageStart "m1")] ⟨"", ""⟩).2.currentMessageId =
      "m1" ∧
    chatPump [Line.json (mkMessageStart "m1")] =
      [ChatStreamEvent.messageStart "m1"] ∧
    countChatComplete (chatPump [Line.json (mkMessageStart "m1")]) = 0 :=
  ⟨rfl, rfl, rfl⟩

/-- C5 amended: at end of stream, `spawn_claude_stream` appends exactly
one final `MessageComplete` carrying the accumulated content iff BOTH
`currentMessageId` and `accumulatedContent` are non-empty, and emits
nothing further; otherwise no flush occurs; the `create_session` pump of
`sessions/resume.rs` emits no end-of-stream event at all. -/
theorem claim_C5_amended (lines : List Line) :
    ((runChatLines lines ⟨"", ""⟩).2.currentMessageId ≠ "" ∧
        (runChatLines lines ⟨"", ""⟩).2.accumulatedContent ≠ "" →
      chatPump lines =
        (runChatLines lines ⟨"", ""⟩).1 ++
          [ChatStreamEvent.messageComplete
            (runChatLines lines ⟨"", ""⟩).2.currentMessageId
            (runChatLines lines ⟨"", ""⟩).2.accumulatedContent]) ∧
    ((runChatLines lines ⟨"", ""⟩).2.currentMessageId = "" ∨
        (runChatLines lines ⟨"", ""⟩).2.accumulatedContent = "" →
      chatPump lines = (runChatLines lines ⟨"", ""⟩).1) ∧
    (∀ (tempId : String) (st : CreateState),
      (createPump tempId st lines).2 = (runCreate tempId st lines).2) := by
  refine ⟨?_, ?_, ?_⟩
  · intro h
    simp [chatPump, String.isEmpty_iff, h.1, h.2]
  · intro h
    rcases h with h | h <;> simp [chatPump, String.isEmpty_iff, h]
  · intro tempId st
    simp [createPump]

/-- C5 witness: a stream ending mid-message with accumulated text gets
exactly the one flush `MessageComplete m1 "Hi"` appended. -/
theorem claim_C5_witness :
    chatPump [Line.json (mkMessageStart "m1"), Line.json (mkContentDelta "Hi")] =
      (runChatLines [Line.json (mkMessageStart "m1"),
          Line.json (mkContentDelta "Hi")] ⟨"", ""⟩).1 ++
        [ChatStreamEvent.messageComplete "m1" "Hi"] := by
  have h := (claim_C5_amended
    [Line.json (mkMessageStart "m1"), Line.json (mkContentDelta "Hi")]).1
    (by constructor <;> decide)
  simpa using h

/-- C6 counterexample: on the perfectly valid wrapped sequence start,
delta `Hi`, stop, the chat pump delivers TWO `MessageComplete` events
for message `m1` — `message_stop` does not clear `ParseState`, so the
end-of-stream flush re-emits the completion — refuting "exactly one
MessageComplete" and "no second MessageComplete follows the first". -/
theorem claim_C6_counterexample :
    chatPump [Line.json (mkMessageStart "m1"), Line.json (mkContentDelta "Hi"),
        Line.json mkMessageStop] =
      [ChatStreamEvent.messageStart "m1", ChatStreamEvent.contentDelta "m1" "Hi",
       ChatStreamEvent.messageComplete "m1" "Hi",
       ChatStreamEvent.messageComplete "m1" "Hi"] ∧
    countChatComplete (chatPump [Line.json (mkMessageStart "m1"),
        Line.json (mkContentDelta "Hi"), Line.json mkMessageStop]) = 2 :=
  ⟨rfl, rfl⟩

/-- C6 amended: for the `sessions/resume.rs` normalizer, the events of a
valid wrapped-schema message are delivered exactly in the order one
`MessageStart`, then the `ContentDelta`s in arrival order, then exactly
one `MessageComplete` (carrying the concatenated deltas); the chat pump
may additionally re-emit the completion at end of stream. -/
theorem claim_C6_amended (id : String) (deltas : List String) :
    (runLines (wrappedSeq id deltas) ⟨"", ""⟩).1 =
      StreamEvent.messageStart id ::
        (deltas.map (StreamEvent.contentDelta id) ++
          [StreamEvent.messageComplete id (concatAll deltas)]) := by
  rw [runLines_wrappedSeq]

/-- C7 counterexample: `create_session` and `resume_session`
(`sessions/resume.rs`) never check absoluteness — an existing,
canonicalizable relative path is accepted and the call succeeds. -/
theorem claim_C7_counterexample :
    relEnv.fs.isAbsolute "projects/demo" = false ∧
    (createSessionStart relEnv "projects/demo" "temp-1" [] 7).1 =
      Except.ok "temp-1" ∧
    (resumeSessionStart relEnv "projects/demo" "real-1" [] 7).1 =
      Except.ok () :=
  ⟨rfl, rfl, rfl⟩

/-- C7 amended: `spawn_claude_stream` fails synchronously before any
spawn when the path is not absolute, does not exist, or cannot be
canonicalized; `create_session`/`resume_session` do so only when the
path does not exist or cannot be canonicalized — a relative existing
path is not rejected on those paths. -/
theorem claim_C7_amended :
    (∀ (env : SpawnEnv) (am : AliasMap) (model p sid : String)
        (reg : Registry) (ph : Nat),
      env.fs.isAbsolute p = false ∨ env.fs.pathExists p = false ∨
          env.fs.canonicalize p = none →
      ∃ e, spawnClaudeStreamStart env am model p sid reg ph =
        (Except.error e, reg, [])) ∧
    (∀ (env : SpawnEnv) (p tid : String) (reg : Registry) (ph : Nat),
      env.fs.pathExists p = false ∨ env.fs.canonicalize p = none →
      ∃ e, createSessionStart env p tid reg ph = (Except.error e, reg, [])) ∧
    (∀ (env : SpawnEnv) (p sid : String) (reg : Registry) (ph : Nat),
      env.fs.pathExists p = false ∨ env.fs.canonicalize p = none →
      ∃ e, resumeSessionStart env p sid reg ph = (Except.error e, reg, [])) := by
  refine ⟨fun env am model p sid reg ph h => ?_,
          fun env p tid reg ph h => ?_,
          fun env p sid reg ph h => ?_⟩
  · rcases h with h | h | h
    · exact ⟨"Project path must be absolute",
        by simp [spawnClaudeStreamStart, validateProjectPath, h]⟩
    · by_cases ha : env.fs.isAbsolute p
      · exact ⟨"Project path does not exist: " ++ p,
          by simp [spawnClaudeStreamStart, validateProjectPath, h, ha]⟩
      · exact ⟨"Project path must be absolute",
          by simp [spawnClaudeStreamStart, validateProjectPath,
            Bool.eq_false_iff.2 ha]⟩
    · by_cases ha : env.fs.isAbsolute p
      · by_cases he : env.fs.pathExists p
        · exact ⟨"Failed to canonicalize path",
            by simp [spawnClaudeStreamStart, validateProjectPath, h, ha, he]⟩
        · exact ⟨"Project path does not exist: " ++ p,
            by simp [spawnClaudeStreamStart, validateProjectPath, ha,
              Bool.eq_false_iff.2 he]⟩
      · exact ⟨"Project path must be absolute",
          by simp [spawnClaudeStreamStart, validateProjectPath,
            Bool.eq_false_iff.2 ha]⟩
  · by_cases hi : env.claudeInstalled
    · rcases h with h | h
      · exact ⟨"Project path does not exist: " ++ p,
          by simp [createSessionStart, hi, h]⟩
      · by_cases he : env.fs.pathExists p
        · exact ⟨"Failed to canonicalize path",
            by simp [createSessionStart, hi, h, he]⟩
        · exact ⟨"Project path does not exist: " ++ p,
            by simp [createSessionStart, hi, Bool.eq_false_iff.2 he]⟩
    · exact ⟨"Claude CLI is not installed. Please install it first.",
        by simp [createSessionStart, Bool.eq_false_iff.2 hi]⟩
  · by_cases hi : env.claudeInstalled
    · rcases h with h | h
      · exact ⟨"Project path does not exist: " ++ p,
          by simp [resumeSessionStart, hi, h]⟩
      · by_cases he : env.fs.pathExists p
        · exact ⟨"Failed to canonicalize path",
            by simp [resumeSessionStart, hi, h, he]⟩
        · exact ⟨"Project path does not exist: " ++ p,
            by simp [resumeSessionStart, hi, Bool.eq_false_iff.2 he]⟩
    · exact ⟨"Claude CLI is not installed. Please install it first.",
        by simp [resumeSessionStart, Bool.eq_false_iff.2 hi]⟩

/-- C7 witness: with an absolute-path filesystem that rejects
existence, the non-absolute branch is exercised through
`spawn_claude_stream` and the existence branch through
`create_session`. -/
theorem claim_C7_witness :
    (∃ e, spawnClaudeStreamStart relEnv [] "sonnet" "projects/demo" "chat-1"
        [] 3 = (Except.error e, [], [])) ∧
    (∃ e, createSessionStart missingPathEnv "/gone" "temp-2"
        [] 3 = (Except.error e, [], [])) := by
  constructor
  · exact claim_C7_amended.1 relEnv [] "sonnet" "projects/demo" "chat-1" [] 3
      (Or.inl rfl)
  · exact claim_C7_amended.2.1 missingPathEnv "/gone" "temp-2" [] 3
      (Or.inl rfl)

/-- C8: when the spawn succeeds but stdout cannot be taken, all three
spawn paths kill the process exactly once, return the stdout failure,
and leave the registry exactly as it was — nothing is ever inserted. -/
theorem claim_C8 (env : SpawnEnv) (am : AliasMap)
    (model p tid rid sid : String) (reg : Registry) (ph : Nat)
    (hInst : env.claudeInstalled = true)
    (hAbs : env.fs.isAbsolute p = true)
    (hEx : env.fs.pathExists p = true)
    (hCanon : ∃ c, env.fs.canonicalize p = some c)
    (hSpawn : env.spawnResult = some false) :
    createSessionStart env p tid reg ph =
      (Except.error "Failed to get stdout", reg,
       [Effect.spawnProc, Effect.killProc ph]) ∧
    resumeSessionStart env p rid reg ph =
      (Except.error "Failed to get stdout", reg,
       [Effect.spawnProc, Effect.killProc ph]) ∧
    spawnClaudeStreamStart env am model p sid reg ph =
      (Except.error "Failed to get stdout", reg,
       [Effect.spawnProc, Effect.killProc ph]) := by
  obtain ⟨c, hc⟩ := hCanon
  simp [createSessionStart, resumeSessionStart, spawnClaudeStreamStart,
    validateProjectPath, hInst, hAbs, hEx, hc, hSpawn]

/-- C8 witness: concrete no-stdout environment; the pre-existing entry
for `other` is untouched and handle 4 is killed once on each path. -/
theorem claim_C8_witness :
    createSessionStart noStdoutEnv "/proj" "temp-1" [("other", 9)] 4 =
      (Except.error "Failed to get stdout", [("other", 9)],
       [Effect.spawnProc, Effect.killProc 4]) ∧
    resumeSessionStart noStdoutEnv "/proj" "real-1" [("other", 9)] 4 =
      (Except.error "Failed to get stdout", [("other", 9)],
       [Effect.spawnProc, Effect.killProc 4]) ∧
    spawnClaudeStreamStart noStdoutEnv [] "sonnet" "/proj" "chat-1"
        [("other", 9)] 4 =
      (Except.error "Failed to get stdout", [("other", 9)],
       [Effect.spawnProc, Effect.killProc 4]) :=
  claim_C8 noStdoutEnv [] "sonnet" "/proj" "temp-1" "real-1" "chat-1"
    [("other", 9)] 4 rfl rfl rfl ⟨"/proj", rfl⟩ rfl

/-- C9: model-name normalization is case-insensitive on known names —
any case-variant (same lowercasing) of an alias that the map resolves is
normalized to the same full id as the alias itself — and names whose
lowercased form misses the map are returned unchanged, original casing
preserved. -/
theorem claim_C9 :
    (∀ (am : AliasMap) (aliasName variant fullId : String),
      lookupAlias am (strToLower aliasName) = some fullId →
      strToLower variant = strToLower aliasName →
      normalizeModelName am variant = fullId ∧
      normalizeModelName am aliasName = fullId) ∧
    (∀ (am : AliasMap) (name : String),
      lookupAlias am (strToLower name) = none →
      normalizeModelName am name = name) := by
  constructor
  · intro am a v fid hFound hCase
    constructor <;> simp [normalizeModelName, hCase, hFound]
  · intro am n h
    simp [normalizeModelName, h]

/-- C9 witness: `SONNET` (an upper-cased case-variant) and `sonnet`
both normalize to the full id; an unknown name passes through. -/
theorem claim_C9_witness :
    normalizeModelName [("sonnet", "claude-sonnet-4-5-20250929")] "SONNET" =
      "claude-sonnet-4-5-20250929" ∧
    normalizeModelName [("sonnet", "claude-sonnet-4-5-20250929")] "sonnet" =
      "claude-sonnet-4-5-20250929" ∧
    normalizeModelName [("sonnet", "claude-sonnet-4-5-20250929")]
      "unknown-model-xyz" = "unknown-model-xyz" := by
  refine ⟨?_, ?_, ?_⟩
  · exact (claim_C9.1 [("sonnet", "claude-sonnet-4-5-20250929")] "sonnet"
      "SONNET" "claude-sonnet-4-5-20250929" (by decide) (by decide)).1
  · exact (claim_C9.1 [("sonnet", "claude-sonnet-4-5-20250929")] "sonnet"
      "SONNET" "claude-sonnet-4-5-20250929" (by decide) (by decide)).2
  · exact claim_C9.2 [("sonnet", "claude-sonnet-4-5-20250929")]
      "unknown-model-xyz" (by decide)

/-- C10: in the verbose schema, an `assistant` line whose message id
`id2` differs from the non-empty `currentMessageId` `id1` emits the
`ContentDelta` under `id2` but keeps `currentMessageId = id1` and
replaces (not appends to) the accumulator with the new text; the
following `result` line then pairs `id1` with the latest text. -/
theorem claim_C10 (id1 id2 t1 t2 : String)
    (hNonEmpty : id1 ≠ "") (_hDiff : id2 ≠ id1) :
    parseStreamEvent (mkAssistant id2 t2) ⟨id1, t1⟩ =
      (some (StreamEvent.contentDelta id2 t2), ⟨id1, t2⟩) ∧
    parseStreamEvent mkResult ⟨id1, t2⟩ =
      (some (StreamEvent.messageComplete id1 t2), ⟨"", ""⟩) := by
  constructor <;>
    simp [parseStreamEvent, mkAssistant, mkResult, Json.get, getField,
      Json.asStr, Json.asArr, findText, hNonEmpty]

/-- C10 witness: with first message `m1` accumulated `hello`, a second
assistant line `m2`/`world` yields `ContentDelta m2 world` and state
(`m1`, `world`); `result` yields `MessageComplete m1 world`. -/
theorem claim_C10_witness :
    parseStreamEvent (mkAssistant "m2" "world") ⟨"m1", "hello"⟩ =
      (some (StreamEvent.contentDelta "m2" "world"), ⟨"m1", "world"⟩) ∧
    parseStreamEvent mkResult ⟨"m1", "world"⟩ =
      (some (StreamEvent.messageComplete "m1" "world"), ⟨"", ""⟩) :=
  claim_C10 "m1" "m2" "hello" "world" (by decide) (by decide)

end CCF
